import Mathlib

/-!
Shallow embedding of pyroute2's `ifinfmsg` decoder
(src/pyroute2/netlink/rtmsg/ifinfmsg.py) and of the generic netlink
attribute-stream machinery it relies on.

Bytes are modelled as `Nat` (values 0..255), byte buffers as `List Nat`,
multi-byte integers in native order as little-endian.  Decoders are total
functions returning `Except DecodeErr`; a Python `struct.error` or a
`KeyError` on an enum-table subscript is modelled as the corresponding
error value.  Decoders that the source reads from a shared cursor are
modelled as functions of the byte span starting at the cursor, returning
the decoded value together with the number of bytes consumed.
-/

namespace Ifinfmsg

/-- Error taxonomy of the decoder, following the spec's names. -/
inductive DecodeErr where
  | truncatedHeader
  | truncatedAttribute
  | lengthMismatch
  | shortPayload
  | unknownEnumValue
  deriving Repr, DecidableEq

/-- Decoded values: integers, signed integers, strings, raw byte regions,
and ordered mappings (Python dict with insertion order). -/
inductive Value where
  | vnone
  | num (n : Nat)
  | int (i : Int)
  | str (s : String)
  | raw (bs : List Nat)
  | dict (entries : List (String × Value))
  deriving Repr

/-- Little-endian value of a byte list (native order on x86). -/
def leVal : List Nat → Nat
  | [] => 0
  | b :: rest => b + 256 * leVal rest

/-- Little-endian 16-bit value. -/
def le16 (a b : Nat) : Nat := a + 256 * b

/-- Little-endian 32-bit value. -/
def le32 (a b c d : Nat) : Nat :=
  a + 256 * b + 65536 * c + 16777216 * d

/-- Reinterpret a 32-bit unsigned value as the signed `i` format of
Python struct (two's complement). -/
def toSigned32 (n : Nat) : Int :=
  if n < 2147483648 then (n : Int) else (n : Int) - 4294967296

/-- Round a length up to the protocol's 4-byte alignment boundary. -/
def align4 (n : Nat) : Nat := (n + 3) / 4 * 4

/-- Unpack a static field list (name, byte width) from a byte span,
little-endian, field by field in declared order; `none` when the span is
too short.  Returns the fields with the number of bytes consumed.
This models `struct.unpack(fmt, ...)` over an `nlmsg` fixed layout. -/
def unpackFields : List (String × Nat) → List Nat → Option (List (String × Value) × Nat)
  | [], _ => some ([], 0)
  | (name, w) :: rest, bs =>
    if w ≤ bs.length then
      match unpackFields rest (bs.drop w) with
      | some (vs, n) => some ((name, Value.num (leVal (bs.take w))) :: vs, w + n)
      | none => none
    else none

/-- An attribute decoder takes the payload span and its declared length,
returning the decoded value and the bytes consumed. -/
abbrev AttrDecoder := List Nat → Nat → Except DecodeErr (Value × Nat)

/-- Modelled from the spec: `pyroute2.common.t_none` (the module is not
under src/) — decodes nothing, returns the none value. -/
def t_none : AttrDecoder := fun _ _ => .ok (.vnone, 0)

/-- Modelled from the spec: `pyroute2.common.t_uint8` — unsigned 8-bit
integer, exact fixed width. -/
def t_uint8 : AttrDecoder := fun bs _ =>
  match bs with
  | b :: _ => .ok (.num b, 1)
  | [] => .error .shortPayload

/-- Modelled from the spec: `pyroute2.common.t_uint32` — unsigned 32-bit
integer, native order. -/
def t_uint32 : AttrDecoder := fun bs _ =>
  match bs with
  | a :: b :: c :: d :: _ => .ok (.num (le32 a b c d), 4)
  | _ => .error .shortPayload

/-- Modelled from the spec: `pyroute2.common.t_hex` — raw byte blob of an
explicit byte count passed by the caller; the raw region keeps its bytes. -/
def t_hex : AttrDecoder := fun bs len =>
  if len ≤ bs.length then .ok (.raw (bs.take len), len) else .error .shortPayload

/-- ASCII string from bytes up to (not including) the first NUL. -/
def asciizOf (bs : List Nat) : String :=
  ((bs.takeWhile (fun b => b ≠ 0)).map Char.ofNat).asString

/-- Modelled from the spec: `pyroute2.common.t_asciiz` — null-terminated
string; an absent terminator decodes up to payload end without failing. -/
def t_asciiz : AttrDecoder := fun bs len =>
  if len ≤ bs.length then .ok (.str (asciizOf (bs.take len)), len)
  else .error .shortPayload

/-- Lower-case hex digit of a value below 16. -/
def hexDigit (n : Nat) : Char :=
  if n < 10 then Char.ofNat (48 + n) else Char.ofNat (87 + n)

/-- Two-digit lower-case hex of one byte. -/
def byteHex (b : Nat) : String :=
  String.mk [hexDigit (b / 16 % 16), hexDigit (b % 16)]

/-- Modelled from the spec: `pyroute2.common.t_l2ad` — link-layer address,
a fixed-size 6-byte sequence formatted as colon-separated hex octets. -/
def t_l2ad : AttrDecoder := fun bs _ =>
  if 6 ≤ bs.length then
    .ok (.str (String.intercalate ":" ((bs.take 6).map byteHex)), 6)
  else .error .shortPayload

/-- Modelled from the spec: code-to-name direction of
`map_namespace("IF_OPER", globals())` (`pyroute2.common.map_namespace` is
not under src/) — a bidirectional mapping built from the seven
`IF_OPER_*` constants defined in the source.  A dict subscript on a
missing key is a Python `KeyError`, modelled as `none` here. -/
def IF_OPER_VALUES : Nat → Option String
  | 0 => some "IF_OPER_UNKNOWN"
  | 1 => some "IF_OPER_NOTPRESENT"
  | 2 => some "IF_OPER_DOWN"
  | 3 => some "IF_OPER_LOWERLAYERDOWN"
  | 4 => some "IF_OPER_TESTING"
  | 5 => some "IF_OPER_DORMANT"
  | 6 => some "IF_OPER_UP"
  | _ => none

/-- Modelled from the spec: name-to-code direction of
`map_namespace("IF_OPER", globals())`. -/
def IF_OPER_NAMES : String → Option Nat
  | "IF_OPER_UNKNOWN" => some 0
  | "IF_OPER_NOTPRESENT" => some 1
  | "IF_OPER_DOWN" => some 2
  | "IF_OPER_LOWERLAYERDOWN" => some 3
  | "IF_OPER_TESTING" => some 4
  | "IF_OPER_DORMANT" => some 5
  | "IF_OPER_UP" => some 6
  | _ => none

/-- `t_state`: read 8 bit and return the interface state as a string,
`IF_OPER_VALUES[struct.unpack("=B", buf.read(1))[0]][8:]`.  The
`KeyError` a dict subscript raises on an unknown byte is the spec's
`UnknownEnumValue`; an empty buffer is a `struct.error` (`ShortPayload`). -/
def t_state : AttrDecoder := fun bs _ =>
  match bs with
  | b :: _ =>
    match IF_OPER_VALUES b with
    | some s => .ok (.str (s.drop 8), 1)
    | none => .error .unknownEnumValue
  | [] => .error .shortPayload

/-- Field names of `t_ifmap`. -/
def ifmapNames : List String :=
  ["mem_start", "mem_end", "base_addr", "irq", "dma", "port"]

/-- Byte widths of `t_ifmap`'s `fmt = "QQQHBB"`; every field is naturally
aligned at its offset, so native mode inserts no padding. -/
def ifmapWidths : List Nat := [8, 8, 8, 2, 1, 1]

/-- Pair an `nlmsg` subclass's `fields` tuple with the byte widths of its
`fmt`.  Modelled from the spec: the base class (not under src/) binds
`dict(zip(fields, struct.unpack(fmt, ...)))`, and Python `zip` truncates
to the shorter sequence — this matters for `t_ipv4_conf`, whose `fields`
has 27 names against 26 format items. -/
def zipFields (names : List String) (widths : List Nat) : List (String × Nat) :=
  names.zip widths

/-- `t_ifmap`: interface map structure. -/
def t_ifmap : AttrDecoder := fun bs _ =>
  match unpackFields (zipFields ifmapNames ifmapWidths) bs with
  | some (vs, n) => .ok (.dict vs, n)
  | none => .error .shortPayload

/-- Field names of `t_ifstats` (`fmt = "I" * 23`). -/
def ifstatsNames : List String :=
  ["rx_packets", "tx_packets", "rx_bytes", "tx_bytes",
   "rx_errors", "tx_errors", "rx_dropped", "tx_dropped",
   "multicast", "collisions", "rx_length_errors", "rx_over_errors",
   "rx_crc_errors", "rx_frame_errors", "rx_fifo_errors",
   "rx_missed_errors", "tx_aborted_errors", "tx_carrier_errors",
   "tx_fifo_errors", "tx_heartbeat_errors", "tx_window_errors",
   "rx_compressed", "tx_compressed"]

/-- `t_ifstats`: interface statistics, 23 unsigned 32-bit fields. -/
def t_ifstats : AttrDecoder := fun bs _ =>
  match unpackFields (zipFields ifstatsNames (List.replicate 23 4)) bs with
  | some (vs, n) => .ok (.dict vs, n)
  | none => .error .shortPayload

/-- `t_ifstats64`: the same 23 fields at 64-bit width (`fmt = "Q" * 23`). -/
def t_ifstats64 : AttrDecoder := fun bs _ =>
  match unpackFields (zipFields ifstatsNames (List.replicate 23 8)) bs with
  | some (vs, n) => .ok (.dict vs, n)
  | none => .error .shortPayload

/-- Field names of `t_ipv6_devconf` (`fmt = "I" * 30`). -/
def ipv6DevconfNames : List String :=
  ["forwarding", "hop_limit", "mtu", "accept_ra", "accept_redirects",
   "autoconf", "dad_transmits", "router_solicitations",
   "router_solicitation_interval", "router_solicitation_delay",
   "use_tempaddr", "temp_valid_lft", "temp_prefered_lft",
   "regen_max_retry", "max_desync_factor", "max_addresses",
   "force_mld_version", "accept_ra_defrtr", "accept_ra_pinfo",
   "accept_ra_rtr_pref", "router_probe_interval",
   "accept_ra_rt_info_max_plen", "proxy_ndp", "optimistic_dad",
   "accept_source_route", "mc_forwarding", "disable_ipv6",
   "accept_dad", "force_tllao", "ndisc_notify"]

/-- Field names of `t_ipv4_conf` (`fmt = "I" * 26`). -/
def ipv4ConfNames : List String :=
  ["sysctl", "forwarding", "mc_forwarding", "proxy_arp",
   "accept_redirects", "secure_redirects", "send_redirects",
   "shared_media", "rp_filter", "accept_source_route", "bootp_relay",
   "log_martians", "tag", "arp_filter", "medium_id", "disable_xfrm",
   "disable_policy", "force_igmp_version", "arp_announce", "arp_ignore",
   "promote_secondaries", "arp_accept", "arp_notify", "accept_local",
   "src_valid_mark", "proxy_arp_pvlan", "route_localnet"]

/-- `t_ipv4_conf`: fixed 32-bit device-configuration struct,
`fmt = "I" * 26`.  The source lists 27 field names against the 26 format
items; the zip pairing keeps the first 26 names. -/
def t_ipv4_conf : AttrDecoder := fun bs _ =>
  match unpackFields (zipFields ipv4ConfNames (List.replicate 26 4)) bs with
  | some (vs, n) => .ok (.dict vs, n)
  | none => .error .shortPayload

/-- `t_ipv6_conf.unpack`: reads, from the cursor position `anfang`, a
32-byte opaque prefix `uncoded_01` (`t_hex(self.buf, 8*4)`), the 30-field
32-bit `t_ipv6_devconf` struct, then the opaque remainder `uncoded_02`
of `self.length - self.buf.tell() + anfang` bytes. -/
def t_ipv6_conf : AttrDecoder := fun bs len =>
  match t_hex bs 32 with
  | .error e => .error e
  | .ok (u1, n1) =>
    match unpackFields (zipFields ipv6DevconfNames (List.replicate 30 4)) (bs.drop 32) with
    | none => .error .shortPayload
    | some (dc, n2) =>
      match t_hex (bs.drop (n1 + n2)) (len - (n1 + n2)) with
      | .error e => .error e
      | .ok (u2, n3) =>
        .ok (.dict [("uncoded_01", u1), ("devconf", .dict dc),
                    ("uncoded_02", u2)], n1 + n2 + n3)

/-- Modelled from the spec: the Attribute Stream Engine's record walk
(`pyroute2.netlink.generic` is not under src/).  A record header is 4
bytes — a 16-bit length field that includes the header, then a 16-bit
code field, native order.  The payload is `length - 4` bytes; the cursor
then advances by the length rounded up to the 4-byte boundary, skipping
the inter-record padding.  The walk stops exactly when the remaining
declared length reaches zero; reaching it mid-record or overshooting it
is a `TruncatedAttribute` / `LengthMismatch` error. -/
def attrStream (bs : List Nat) (remaining : Nat) :
    Except DecodeErr (List (Nat × List Nat)) :=
  if remaining = 0 then .ok []
  else if remaining < 4 then .error .truncatedAttribute
  else match bs with
    | a :: b :: c :: d :: rest =>
      if a + 256 * b < 4 then .error .lengthMismatch
      else if remaining < align4 (a + 256 * b) then .error .truncatedAttribute
      else if rest.length < align4 (a + 256 * b) - 4 then .error .truncatedAttribute
      else
        match attrStream (rest.drop (align4 (a + 256 * b) - 4))
            (remaining - align4 (a + 256 * b)) with
        | .ok tail => .ok ((c + 256 * d, rest.take (a + 256 * b - 4)) :: tail)
        | .error e => .error e
    | _ => .error .truncatedAttribute
termination_by remaining
decreasing_by simp [align4] at *; omega

/-- Store a value under a display name in an ordered mapping: overwrite
in place when the key exists (last write wins), append otherwise —
Python dict assignment semantics. -/
def setDict (d : List (String × Value)) (k : String) (v : Value) :
    List (String × Value) :=
  if (d.lookup k).isSome then
    d.map (fun p => if p.1 = k then (k, v) else p)
  else d ++ [(k, v)]

/-- Modelled from the spec: per-record dispatch of the Attribute Stream
Engine.  A code found in the table invokes its decoder on exactly the
payload span and stores the result under the display name; a code not in
the table is dropped, the walk continuing with the next record. -/
def dispatchRecords (table : Nat → Option (AttrDecoder × String))
    (acc : List (String × Value)) :
    List (Nat × List Nat) → Except DecodeErr (List (String × Value))
  | [] => .ok acc
  | (code, payload) :: rest =>
    match table code with
    | none => dispatchRecords table acc rest
    | some (dec, name) =>
      match dec payload payload.length with
      | .error e => .error e
      | .ok (v, _) => dispatchRecords table (setDict acc name v) rest

/-- Modelled from the spec: the Attribute Stream Engine — walk the TLV
records of a byte span of declared consumable length, then dispatch each
through the attribute table. -/
def decodeStream (table : Nat → Option (AttrDecoder × String))
    (bs : List Nat) (declared : Nat) :
    Except DecodeErr (List (String × Value)) :=
  match attrStream bs declared with
  | .error e => .error e
  | .ok recs => dispatchRecords table [] recs

/-- `t_ifinfo.attr_map`: the IFLA_LINKINFO sub-table. -/
def t_ifinfo_map : Nat → Option (AttrDecoder × String)
  | 0 => some (t_none, "none")
  | 1 => some (t_asciiz, "kind")
  | 2 => some (t_hex, "data")
  | 3 => some (t_hex, "xstats")
  | _ => none

/-- `t_ifinfo`: parse the IFLA_LINKINFO attribute as a nested stream. -/
def t_ifinfo : AttrDecoder := fun bs len =>
  match decodeStream t_ifinfo_map bs len with
  | .error e => .error e
  | .ok d => .ok (.dict d, len)

/-- `t_af_spec.attr_map`: the IFLA_AF_SPEC sub-table, keyed by the
address family carried as the attribute code (`AF_INET = 2`,
`AF_INET6 = 10` on Linux). -/
def t_af_spec_map : Nat → Option (AttrDecoder × String)
  | 2 => some (t_ipv4_conf, "AF_INET")
  | 10 => some (t_ipv6_conf, "AF_INET6")
  | _ => none

/-- `t_af_spec`: parse the IFLA_AF_SPEC attribute as a nested stream. -/
def t_af_spec : AttrDecoder := fun bs len =>
  match decodeStream t_af_spec_map bs len with
  | .error e => .error e
  | .ok d => .ok (.dict d, len)

/-- `t_ifla_attr`: the top-level link-attribute table.  Codes defined in
the source but absent from the table (IFLA_COST = 8, IFLA_PRIORITY = 9,
IFLA_WEIGHT = 15, and others) map to `none`. -/
def t_ifla_attr : Nat → Option (AttrDecoder × String)
  | 0 => some (t_none, "none")
  | 1 => some (t_l2ad, "hwaddr")
  | 2 => some (t_l2ad, "broadcast")
  | 3 => some (t_asciiz, "dev")
  | 4 => some (t_uint32, "mtu")
  | 5 => some (t_uint32, "link")
  | 6 => some (t_asciiz, "qdisc")
  | 7 => some (t_ifstats, "stats")
  | 10 => some (t_uint32, "master")
  | 11 => some (t_hex, "wireless")
  | 13 => some (t_uint32, "txqlen")
  | 14 => some (t_ifmap, "ifmap")
  | 16 => some (t_state, "state")
  | 17 => some (t_uint8, "linkmode")
  | 18 => some (t_ifinfo, "linkinfo")
  | 21 => some (t_uint32, "vf number")
  | 23 => some (t_ifstats64, "stats64")
  | 26 => some (t_af_spec, "af spec")
  | 27 => some (t_uint32, "group")
  | 30 => some (t_uint32, "promiscuity")
  | 31 => some (t_uint32, "tx queues")
  | 32 => some (t_uint32, "rx queues")
  | _ => none

/-- Modelled from the spec: the external hardware-type enum table
(`pyroute2.arp.ARPHRD_VALUES`, not under src/) — code-to-name lookup;
a dict subscript on a missing code is a Python `KeyError`. -/
def ARPHRD_VALUES : Nat → Option String
  | 0 => some "ARPHRD_NETROM"
  | 1 => some "ARPHRD_ETHER"
  | 772 => some "ARPHRD_LOOPBACK"
  | _ => none

/-- `ifinfmsg` fixed-header unpack (`fmt = "BHiII"`): native mode pads
one byte after the leading `B` to align the `H`, giving the 16-byte
`struct ifinfomsg` layout; `i` is signed.  The fields are bound in fmt
order into the ordered mapping. -/
def ifinfmsg_unpack (bs : List Nat) : Except DecodeErr (List (String × Value)) :=
  match bs with
  | b0 :: _pad :: b2 :: b3 :: b4 :: b5 :: b6 :: b7 ::
      b8 :: b9 :: b10 :: b11 :: b12 :: b13 :: b14 :: b15 :: _ =>
    .ok [("family", .num b0),
         ("ifi_type", .num (le16 b2 b3)),
         ("index", .int (toSigned32 (le32 b4 b5 b6 b7))),
         ("flags", .num (le32 b8 b9 b10 b11)),
         ("change", .num (le32 b12 b13 b14 b15))]
  | _ => .error .truncatedHeader

/-- `ifinfmsg.setup`: `self['type'] = 'link'` appends the tag, then
`self['ifi_type'] = ARPHRD_VALUES[self['ifi_type']][7:]` rewrites the
hardware-type field to its symbolic name with the 7-character
`ARPHRD_` prefix stripped.  The dict subscripts raise `KeyError` on a
missing key (the spec's `UnknownEnumValue`), aborting the setup. -/
def ifinfmsg_setup (d : List (String × Value)) :
    Except DecodeErr (List (String × Value)) :=
  let d1 := setDict d "type" (.str "link")
  match d1.lookup "ifi_type" with
  | some (.num t) =>
    match ARPHRD_VALUES t with
    | some nm => .ok (setDict d1 "ifi_type" (.str (nm.drop 7)))
    | none => .error .unknownEnumValue
  | _ => .error .unknownEnumValue

/-- Header decode of one `ifinfmsg`: fixed-header unpack followed by
`setup`. -/
def ifinfmsg_decode_header (bs : List Nat) :
    Except DecodeErr (List (String × Value)) :=
  match ifinfmsg_unpack bs with
  | .error e => .error e
  | .ok d => ifinfmsg_setup d

theorem le_align4 (n : Nat) : n ≤ align4 n := by
  simp [align4]; omega

theorem unpackFields_complete (fields : List (String × Nat)) (bs : List Nat)
    (h : (fields.map Prod.snd).sum ≤ bs.length) :
    ∃ vs, unpackFields fields bs = some (vs, (fields.map Prod.snd).sum) ∧
      vs.map Prod.fst = fields.map Prod.fst := by
  induction fields generalizing bs with
  | nil => simp [unpackFields]
  | cons f rest ih =>
    obtain ⟨name, w⟩ := f
    simp only [List.map_cons, List.sum_cons] at h ⊢
    have hw : w ≤ bs.length := by omega
    have h2 : (rest.map Prod.snd).sum ≤ (bs.drop w).length := by
      simp [List.length_drop]; omega
    obtain ⟨vs, hvs, hnames⟩ := ih (bs.drop w) h2
    refine ⟨(name, Value.num (leVal (bs.take w))) :: vs, ?_, ?_⟩
    · simp [unpackFields, hw, hvs]
    · simp [hnames]

/-- C8: the fixed-layout struct decoders, fed a span of exactly the byte
count implied by their static field list, consume all of it and produce
one value per declared field name in declared order. -/
theorem fixed_struct_decoders_exact :
    (∀ bs : List Nat, bs.length = 28 → ∀ len, ∃ vs,
        t_ifmap bs len = .ok (.dict vs, 28) ∧
        vs.map Prod.fst = ifmapNames) ∧
    (∀ bs : List Nat, bs.length = 92 → ∀ len, ∃ vs,
        t_ifstats bs len = .ok (.dict vs, 92) ∧
        vs.map Prod.fst = ifstatsNames) ∧
    (∀ bs : List Nat, bs.length = 184 → ∀ len, ∃ vs,
        t_ifstats64 bs len = .ok (.dict vs, 184) ∧
        vs.map Prod.fst = ifstatsNames) := by
  refine ⟨?_, ?_, ?_⟩
  · intro bs hbs len
    have hsum : (List.map Prod.snd (zipFields ifmapNames ifmapWidths)).sum = 28 := by decide
    obtain ⟨vs, hvs, hn⟩ := unpackFields_complete
      (zipFields ifmapNames ifmapWidths) bs (by rw [hsum, hbs])
    rw [hsum] at hvs
    refine ⟨vs, ?_, by rw [hn]; rfl⟩
    simp only [t_ifmap]
    rw [hvs]
  · intro bs hbs len
    have hsum : (List.map Prod.snd (zipFields ifstatsNames (List.replicate 23 4))).sum = 92 := by
      decide
    obtain ⟨vs, hvs, hn⟩ := unpackFields_complete
      (zipFields ifstatsNames (List.replicate 23 4)) bs (by rw [hsum, hbs])
    rw [hsum] at hvs
    refine ⟨vs, ?_, by rw [hn]; rfl⟩
    simp only [t_ifstats]
    rw [hvs]
  · intro bs hbs len
    have hsum : (List.map Prod.snd (zipFields ifstatsNames (List.replicate 23 8))).sum = 184 := by
      decide
    obtain ⟨vs, hvs, hn⟩ := unpackFields_complete
      (zipFields ifstatsNames (List.replicate 23 8)) bs (by rw [hsum, hbs])
    rw [hsum] at hvs
    refine ⟨vs, ?_, by rw [hn]; rfl⟩
    simp only [t_ifstats64]
    rw [hvs]

/-- C1: the IPv6 family-scoped container decode yields, in order, a
32-byte opaque prefix, the 30-field device-configuration struct, and an
opaque remainder of exactly `len - 32 - 120` bytes, consuming the whole
declared length — also when `len` exceeds the known layout. -/
theorem ipv6_conf_layout (bs : List Nat) (len : Nat)
    (h152 : 152 ≤ len) (hlen : len ≤ bs.length) :
    ∃ dc,
      t_ipv6_conf bs len =
        .ok (.dict [("uncoded_01", .raw (bs.take 32)),
                    ("devconf", .dict dc),
                    ("uncoded_02", .raw ((bs.drop 152).take (len - 152)))], len) ∧
      dc.map Prod.fst = ipv6DevconfNames ∧
      (bs.take 32).length = 32 ∧
      ((bs.drop 152).take (len - 152)).length = len - 152 ∧
      32 + 120 + (len - 152) = len := by
  have h32 : (32 : Nat) ≤ bs.length := by omega
  have hsum : (List.map Prod.snd (zipFields ipv6DevconfNames (List.replicate 30 4))).sum = 120 := by
    decide
  obtain ⟨dc, hdc, hn⟩ := unpackFields_complete
    (zipFields ipv6DevconfNames (List.replicate 30 4)) (bs.drop 32)
    (by rw [hsum]; simp [List.length_drop]; omega)
  refine ⟨dc, ?_, ?_, ?_, ?_, ?_⟩
  · simp only [t_ipv6_conf, t_hex, if_pos h32]
    rw [hsum] at hdc
    simp only [hdc]
    have htail : len - (32 + 120) ≤ (bs.drop (32 + 120)).length := by
      simp [List.length_drop]; omega
    simp only [if_pos htail]
    norm_num
    omega
  · rw [hn]; rfl
  · simp; omega
  · simp; omega
  · omega

/-- C3: a state byte in 0..6 decodes to the enum name with its
`IF_OPER_` prefix stripped (6 gives "UP"); a byte outside 0..6 is an
UnknownEnumValue error. -/
theorem state_decode (b : Nat) (bs : List Nat) (len : Nat) :
    (b ≤ 6 → ∃ s, IF_OPER_VALUES b = some s ∧
        t_state (b :: bs) len = .ok (.str (s.drop 8), 1)) ∧
    (b = 6 → t_state (b :: bs) len = .ok (.str "UP", 1)) ∧
    (6 < b → t_state (b :: bs) len = .error .unknownEnumValue) := by
  refine ⟨?_, ?_, ?_⟩
  · intro hb
    interval_cases b <;> exact ⟨_, rfl, rfl⟩
  · intro hb; subst hb; rfl
  · intro hb
    obtain ⟨k, rfl⟩ : ∃ k, b = k + 7 := ⟨b - 7, by omega⟩
    rfl

/-- C9: the operational-state enum mapping is bidirectional and total
over its seven values; name and code lookups are mutually inverse. -/
theorem if_oper_bidirectional :
    (∀ c, c ≤ 6 → ∃ s, IF_OPER_VALUES c = some s ∧ IF_OPER_NAMES s = some c) ∧
    (∀ s c, IF_OPER_NAMES s = some c → IF_OPER_VALUES c = some s) := by
  constructor
  · intro c hc
    interval_cases c <;> exact ⟨_, rfl, rfl⟩
  · intro s c h
    unfold IF_OPER_NAMES at h
    split at h <;> simp_all <;> subst h <;> rfl

theorem attrStream_zero (bs : List Nat) : attrStream bs 0 = .ok [] := by
  unfold attrStream; rfl

theorem attrStream_mid (bs : List Nat) (r : Nat) (h0 : 0 < r) (h4 : r < 4) :
    attrStream bs r = .error .truncatedAttribute := by
  unfold attrStream
  rw [if_neg (by omega), if_pos h4]

theorem attrStream_step (a b c d : Nat) (rest : List Nat) (r : Nat)
    (hl : 4 ≤ a + 256 * b) (hr : align4 (a + 256 * b) ≤ r)
    (hrest : align4 (a + 256 * b) - 4 ≤ rest.length) :
    attrStream (a :: b :: c :: d :: rest) r =
      Except.map (fun tail => (c + 256 * d, rest.take (a + 256 * b - 4)) :: tail)
        (attrStream (rest.drop (align4 (a + 256 * b) - 4))
          (r - align4 (a + 256 * b))) := by
  have ha : 4 ≤ align4 (a + 256 * b) := le_trans hl (le_align4 _)
  conv_lhs => rw [attrStream]
  rw [if_neg (by omega), if_neg (by omega)]
  rw [if_neg (by omega), if_neg (by omega), if_neg (by omega)]
  cases hres : attrStream (rest.drop (align4 (a + 256 * b) - 4))
      (r - align4 (a + 256 * b)) with
  | ok tail => simp [Except.map]
  | error e => simp [Except.map]

theorem attrStream_overshoot (a b c d : Nat) (rest : List Nat) (r : Nat)
    (h4 : 4 ≤ r) (hl : 4 ≤ a + 256 * b) (hover : r < align4 (a + 256 * b)) :
    attrStream (a :: b :: c :: d :: rest) r = .error .truncatedAttribute := by
  conv_lhs => rw [attrStream]
  rw [if_neg (by omega), if_neg (by omega)]
  rw [if_neg (by omega), if_pos hover]

/-- C2: the stream engine advances from one record to the next by the
record length rounded up to the 4-byte boundary, skipping the padding,
and succeeds only by landing on the declared length exactly — reaching
it mid-record or overshooting is a TruncatedAttribute error. -/
theorem attr_stream_walk :
    (∀ bs : List Nat, attrStream bs 0 = .ok []) ∧
    (∀ (bs : List Nat) (r : Nat), 0 < r → r < 4 →
        attrStream bs r = .error .truncatedAttribute) ∧
    (∀ (a b c d : Nat) (rest : List Nat) (r : Nat),
        4 ≤ a + 256 * b → align4 (a + 256 * b) ≤ r →
        align4 (a + 256 * b) - 4 ≤ rest.length →
        attrStream (a :: b :: c :: d :: rest) r =
          Except.map
            (fun tail => (c + 256 * d, rest.take (a + 256 * b - 4)) :: tail)
            (attrStream (rest.drop (align4 (a + 256 * b) - 4))
              (r - align4 (a + 256 * b)))) ∧
    (∀ (a b c d : Nat) (rest : List Nat) (r : Nat),
        4 ≤ r → 4 ≤ a + 256 * b → r < align4 (a + 256 * b) →
        attrStream (a :: b :: c :: d :: rest) r = .error .truncatedAttribute) :=
  ⟨attrStream_zero, attrStream_mid, attrStream_step, attrStream_overshoot⟩

/-- C5: a top-level record whose code is not in `t_ifla_attr` (such as
IFLA_COST = 8 or IFLA_PROTINFO = 12) does not abort the decode — it is
dropped, the cursor advances past it, and the rest of the stream decodes
exactly as without it. -/
theorem unknown_code_skipped :
    t_ifla_attr 8 = none ∧ t_ifla_attr 12 = none ∧
    ∀ (a b c d : Nat) (rest : List Nat) (r : Nat),
      t_ifla_attr (c + 256 * d) = none →
      4 ≤ a + 256 * b → align4 (a + 256 * b) ≤ r →
      align4 (a + 256 * b) - 4 ≤ rest.length →
      decodeStream t_ifla_attr (a :: b :: c :: d :: rest) r =
        decodeStream t_ifla_attr (rest.drop (align4 (a + 256 * b) - 4))
          (r - align4 (a + 256 * b)) := by
  refine ⟨rfl, rfl, ?_⟩
  intro a b c d rest r hcode hl hr hrest
  unfold decodeStream
  rw [attrStream_step a b c d rest r hl hr hrest]
  cases attrStream (rest.drop (align4 (a + 256 * b) - 4))
      (r - align4 (a + 256 * b)) with
  | ok tail => simp [Except.map, dispatchRecords, hcode]
  | error e => simp [Except.map]

/-- C7: in the IFLA_AF_SPEC container the record code is the address
family itself — AF_INET (2) selects the 26-field 32-bit struct decoder
with no trailing unknown region, AF_INET6 (10) selects `t_ipv6_conf`,
and any other code follows the unknown-code path. -/
theorem af_spec_family_dispatch :
    t_af_spec_map 2 = some (t_ipv4_conf, "AF_INET") ∧
    t_af_spec_map 10 = some (t_ipv6_conf, "AF_INET6") ∧
    (∀ c, c ≠ 2 → c ≠ 10 → t_af_spec_map c = none) ∧
    (∀ bs : List Nat, 104 ≤ bs.length → ∀ len, ∃ vs,
        t_ipv4_conf bs len = .ok (.dict vs, 104) ∧
        vs.map Prod.fst = ipv4ConfNames.take 26 ∧ vs.length = 26) ∧
    (∀ (acc : List (String × Value)) (c : Nat) (payload : List Nat)
        (rest : List (Nat × List Nat)), c ≠ 2 → c ≠ 10 →
        dispatchRecords t_af_spec_map acc ((c, payload) :: rest) =
          dispatchRecords t_af_spec_map acc rest) := by
  have hnone : ∀ c : Nat, c ≠ 2 → c ≠ 10 → t_af_spec_map c = none := by
    intro c h2 h10
    unfold t_af_spec_map
    split
    · omega
    · omega
    · rfl
  refine ⟨rfl, rfl, hnone, ?_, ?_⟩
  · intro bs hbs len
    have hsum : (List.map Prod.snd (zipFields ipv4ConfNames (List.replicate 26 4))).sum = 104 := by
      decide
    obtain ⟨vs, hvs, hn⟩ := unpackFields_complete
      (zipFields ipv4ConfNames (List.replicate 26 4)) bs (by rw [hsum]; omega)
    rw [hsum] at hvs
    have h1 : vs.map Prod.fst = ipv4ConfNames.take 26 := by rw [hn]; rfl
    refine ⟨vs, ?_, h1, ?_⟩
    · simp only [t_ipv4_conf]
      rw [hvs]
    · have h2 : vs.length = (ipv4ConfNames.take 26).length := by
        rw [← h1]; simp
      exact h2.trans (by rfl)
  · intro acc c payload rest h2 h10
    simp [dispatchRecords, hnone c h2 h10]

/-- C10: `ifinfmsg.setup` only appends the `type = link` tag and rewrites
`ifi_type` to the hardware-type name with its 7-character prefix
stripped; `family`, `index`, `flags` and `change` stay exactly as
unpacked. -/
theorem setup_frame (f t : Nat) (i : Int) (fl ch : Nat) (nm : String)
    (harp : ARPHRD_VALUES t = some nm) :
    ifinfmsg_setup
        [("family", .num f), ("ifi_type", .num t), ("index", .int i),
         ("flags", .num fl), ("change", .num ch)] =
      .ok [("family", .num f), ("ifi_type", .str (nm.drop 7)),
           ("index", .int i), ("flags", .num fl), ("change", .num ch),
           ("type", .str "link")] := by
  simp [ifinfmsg_setup, setDict, List.lookup, harp]

/-- C6: the fixed header is unpacked as family byte, hardware-type
half-word, signed index word, flags word and change-mask word in native
order, and the decoded message holds the four raw integer fields plus
exactly two derived symbolic fields — the looked-up hardware-type name
and the literal `type = link` tag. -/
theorem header_decode (b0 p b2 b3 b4 b5 b6 b7 b8 b9 b10 b11 b12 b13 b14 b15 : Nat)
    (rest : List Nat) (nm : String)
    (harp : ARPHRD_VALUES (le16 b2 b3) = some nm) :
    ifinfmsg_decode_header
        (b0 :: p :: b2 :: b3 :: b4 :: b5 :: b6 :: b7 ::
          b8 :: b9 :: b10 :: b11 :: b12 :: b13 :: b14 :: b15 :: rest) =
      .ok [("family", .num b0),
           ("ifi_type", .str (nm.drop 7)),
           ("index", .int (toSigned32 (le32 b4 b5 b6 b7))),
           ("flags", .num (le32 b8 b9 b10 b11)),
           ("change", .num (le32 b12 b13 b14 b15)),
           ("type", .str "link")] := by
  simp [ifinfmsg_decode_header, ifinfmsg_unpack, ifinfmsg_setup, setDict,
    List.lookup, harp]

/-- C4 counterexample: with hardware-type code 32767 (no entry in the
hardware-type table) the decode of the whole header aborts with an
error — it does not proceed with `ifi_type` retained as a raw integer. -/
theorem header_unknown_hwtype_aborts :
    ifinfmsg_decode_header
        [1, 0, 255, 127, 1, 0, 0, 0, 3, 16, 0, 0, 0, 0, 0, 0] =
      .error .unknownEnumValue := by
  rfl

/-- C4 amended: when the hardware-type code has no table entry, the
subscript fails and header decode returns an error instead of a decoded
message; nothing of the message is produced. -/
theorem header_unknown_hwtype (b0 p b2 b3 b4 b5 b6 b7 b8 b9 b10 b11 b12 b13 b14 b15 : Nat)
    (rest : List Nat)
    (harp : ARPHRD_VALUES (le16 b2 b3) = none) :
    ifinfmsg_decode_header
        (b0 :: p :: b2 :: b3 :: b4 :: b5 :: b6 :: b7 ::
          b8 :: b9 :: b10 :: b11 :: b12 :: b13 :: b14 :: b15 :: rest) =
      .error .unknownEnumValue := by
  simp [ifinfmsg_decode_header, ifinfmsg_unpack, ifinfmsg_setup, setDict,
    List.lookup, harp]

theorem ipv6_conf_layout_witness :
    ∃ dc, t_ipv6_conf (List.replicate 160 0) 160 =
        .ok (.dict [("uncoded_01", .raw ((List.replicate 160 0).take 32)),
                    ("devconf", .dict dc),
                    ("uncoded_02",
                     .raw (((List.replicate 160 0).drop 152).take (160 - 152)))], 160) ∧
      dc.map Prod.fst = ipv6DevconfNames ∧
      ((List.replicate 160 0).take 32).length = 32 ∧
      (((List.replicate 160 0).drop 152).take (160 - 152)).length = 160 - 152 ∧
      32 + 120 + (160 - 152) = 160 :=
  ipv6_conf_layout (List.replicate 160 0) 160 (by decide) (by simp)

theorem attr_stream_walk_witness :
    attrStream [8, 0, 4, 0, 9, 9, 9, 9] 8 =
      Except.map
        (fun tail => (4 + 256 * 0, [9, 9, 9, 9].take (8 + 256 * 0 - 4)) :: tail)
        (attrStream ([9, 9, 9, 9].drop (align4 (8 + 256 * 0) - 4))
          (8 - align4 (8 + 256 * 0))) :=
  attr_stream_walk.2.2.1 8 0 4 0 [9, 9, 9, 9] 8 (by decide) (by decide) (by decide)

theorem state_decode_witness :
    t_state [6] 1 = .ok (.str "UP", 1) ∧
    t_state [7] 1 = .error .unknownEnumValue :=
  ⟨(state_decode 6 [] 1).2.1 rfl, (state_decode 7 [] 1).2.2 (by decide)⟩

theorem header_unknown_hwtype_witness :
    ifinfmsg_decode_header [1, 0, 2, 0, 1, 0, 0, 0, 0, 0, 0, 0, 0, 0, 0, 0] =
      .error .unknownEnumValue :=
  header_unknown_hwtype 1 0 2 0 1 0 0 0 0 0 0 0 0 0 0 0 [] rfl

theorem unknown_code_skipped_witness :
    decodeStream t_ifla_attr [8, 0, 8, 0, 1, 2, 3, 4] 8 =
      decodeStream t_ifla_attr ([1, 2, 3, 4].drop (align4 (8 + 256 * 0) - 4))
        (8 - align4 (8 + 256 * 0)) :=
  unknown_code_skipped.2.2 8 0 8 0 [1, 2, 3, 4] 8 rfl (by decide) (by decide) (by decide)

theorem header_decode_witness :
    ifinfmsg_decode_header [7, 0, 1, 0, 2, 0, 0, 0, 69, 16, 0, 0, 255, 255, 255, 255] =
      .ok [("family", .num 7), ("ifi_type", .str ("ARPHRD_ETHER".drop 7)),
           ("index", .int (toSigned32 (le32 2 0 0 0))),
           ("flags", .num (le32 69 16 0 0)),
           ("change", .num (le32 255 255 255 255)),
           ("type", .str "link")] :=
  header_decode 7 0 1 0 2 0 0 0 69 16 0 0 255 255 255 255 [] "ARPHRD_ETHER" rfl

theorem af_spec_family_dispatch_witness :
    (∃ vs, t_ipv4_conf (List.replicate 104 0) 104 = .ok (.dict vs, 104) ∧
        vs.map Prod.fst = ipv4ConfNames.take 26 ∧ vs.length = 26) ∧
    dispatchRecords t_af_spec_map [] [(7, [1, 2])] =
      dispatchRecords t_af_spec_map [] [] :=
  ⟨af_spec_family_dispatch.2.2.2.1 (List.replicate 104 0) (by simp) 104,
   af_spec_family_dispatch.2.2.2.2 [] 7 [1, 2] [] (by decide) (by decide)⟩

theorem fixed_struct_decoders_exact_witness :
    (∃ vs, t_ifmap (List.replicate 28 0) 28 = .ok (.dict vs, 28) ∧
        vs.map Prod.fst = ifmapNames) ∧
    (∃ vs, t_ifstats (List.replicate 92 0) 92 = .ok (.dict vs, 92) ∧
        vs.map Prod.fst = ifstatsNames) ∧
    (∃ vs, t_ifstats64 (List.replicate 184 0) 184 = .ok (.dict vs, 184) ∧
        vs.map Prod.fst = ifstatsNames) :=
  ⟨fixed_struct_decoders_exact.1 (List.replicate 28 0) (List.length_replicate 28 0) 28,
   fixed_struct_decoders_exact.2.1 (List.replicate 92 0) (List.length_replicate 92 0) 92,
   fixed_struct_decoders_exact.2.2 (List.replicate 184 0) (List.length_replicate 184 0) 184⟩

theorem if_oper_bidirectional_witness :
    (∃ s, IF_OPER_VALUES 6 = some s ∧ IF_OPER_NAMES s = some 6) ∧
    IF_OPER_VALUES 2 = some "IF_OPER_DOWN" :=
  ⟨if_oper_bidirectional.1 6 (by decide),
   if_oper_bidirectional.2 "IF_OPER_DOWN" 2 rfl⟩

theorem setup_frame_witness :
    ifinfmsg_setup [("family", .num 0), ("ifi_type", .num 772), ("index", .int 1),
                    ("flags", .num 73), ("change", .num 0)] =
      .ok [("family", .num 0), ("ifi_type", .str ("ARPHRD_LOOPBACK".drop 7)),
           ("index", .int 1), ("flags", .num 73), ("change", .num 0),
           ("type", .str "link")] :=
  setup_frame 0 772 1 73 0 "ARPHRD_LOOPBACK" rfl

end Ifinfmsg
